import Mathlib

/-!
Verification of the 1D XRD data container (`xrd1d`) and its unit-conversion
and range-trimming helpers from `plugins/xrd/xrd.py`.

Arrays of floats are embedded as `List ℚ`; numpy index arithmetic is
embedded over `ℕ`.  Python code paths that raise an exception are embedded
as `none` results (any attribute mutation that may precede an exception
is noted per definition where it occurs).
-/

namespace Xrd

/-- Python `str.startswith(pre)` (structural, so that closed scenarios
evaluate in the kernel). -/
def pyStartsWith (s pre : String) : Bool := pre.data.isPrefixOf s.data

/-- Modelled from the spec: the elementwise unit conversions imported from
`larch_plugins.xrd.xrd_tools` (`d_from_q`, `twth_from_q`, `q_from_twth`,
`d_from_twth`, `q_from_d`, `twth_from_d`) are not part of the sources under
verification.  The spec describes them as closed-form per-element transforms
(for instance `d = 2*pi/q`), applied elementwise by numpy broadcasting, so
they are abstracted here as a bundle of scalar maps; no verified property
depends on their numeric values, only on their elementwise application. -/
structure XrdTools where
  d_from_q : ℚ → ℚ
  twth_from_q : ℚ → ℚ → ℚ
  q_from_twth : ℚ → ℚ → ℚ
  d_from_twth : ℚ → ℚ → ℚ
  q_from_d : ℚ → ℚ
  twth_from_d : ℚ → ℚ → ℚ

/-- State of a 1D XRD pattern: the data attributes of class `xrd1d` that the
range/background/peak operations read and write (`q`, `twth`, `d`, `I`,
`bkgd`, `imin`, `imax`, `pki`, `wavelength`).  The purely descriptive
calibration metadata (`distance`, `poni`, `rotation`, ...) is carried by no
operation verified here and is omitted. -/
structure xrd1d where
  q : List ℚ
  twth : List ℚ
  d : List ℚ
  I : List ℚ
  bkgd : List ℚ
  imin : ℕ
  imax : ℕ
  pki : List ℕ
  wavelength : Option ℚ
deriving DecidableEq, Repr

/-- Python slice `l[a:b]` for natural `a`, `b`. -/
def listSlice (l : List ℚ) (a b : ℕ) : List ℚ := (l.take b).drop a

/-- Numpy `np.zeros(n)`. -/
def zeros (n : ℕ) : List ℚ := List.replicate n 0

/-- Numpy `np.min` (0 on the empty array, where numpy raises). -/
def listMin : List ℚ → ℚ
  | [] => 0
  | a :: t => t.foldl min a

/-- Numpy `np.max` (0 on the empty array, where numpy raises). -/
def listMax : List ℚ → ℚ
  | [] => 0
  | a :: t => t.foldl max a

/-- Numpy `np.abs` on one element (sign test and negation, which keeps the
definition evaluable; `absQ_eq_abs` identifies it with `|a|`). -/
def absQ (a : ℚ) : ℚ := if a < 0 then -a else a

theorem absQ_eq_abs (a : ℚ) : absQ a = |a| := by
  unfold absQ
  rcases lt_or_le a 0 with h | h
  · rw [if_pos h, abs_of_neg h]
  · rw [if_neg (not_lt.mpr h), abs_of_nonneg h]

/-- Helper for `argminAbs`: scan the tail keeping the first index of the
least value seen so far, as `ndarray.argmin` does. -/
def argminAbsAux (v : ℚ) : List ℚ → ℕ → ℕ → ℚ → ℕ
  | [], _, bi, _ => bi
  | a :: t, i, bi, bv =>
      if absQ (a - v) < bv then argminAbsAux v t (i + 1) i (absQ (a - v))
      else argminAbsAux v t (i + 1) bi bv

/-- Numpy `(np.abs(x - v)).argmin()`: index of the first sample of `x`
nearest to `v` (0 on the empty array, where numpy raises). -/
def argminAbs (x : List ℚ) (v : ℚ) : ℕ :=
  match x with
  | [] => 0
  | a :: t => argminAbsAux v t 1 0 (absQ (a - v))

/-- Numpy elementwise subtraction `a - b` of two 1D arrays, including the
length-1 broadcast cases; `none` is the `ValueError` raised on any other
shape mismatch. -/
def npSub (a b : List ℚ) : Option (List ℚ) :=
  if a.length = b.length then some (List.zipWith (fun u v => u - v) a b)
  else
    match a, b with
    | _, [c] => some (a.map (fun u => u - c))
    | [c], _ => some (b.map (fun v => c - v))
    | _, _ => none

/-- Function `calculate_xvalues(x, xtype, wavelength)`: projects the given
axis onto the q-, 2theta- and d-axes.  A missing wavelength yields
`np.zeros(len(x))` for each axis that needs it; an unrecognized `xtype`
prints a message and returns the `(None, None, None)` sentinel, embedded as
`none`. -/
def calculate_xvalues (T : XrdTools) (x : List ℚ) (xtype : String)
    (wavelength : Option ℚ) : Option (List ℚ × List ℚ × List ℚ) :=
  if pyStartsWith xtype ("q") then
    let d := x.map T.d_from_q
    match wavelength with
    | some wl => some (x, x.map (fun v => T.twth_from_q v wl), d)
    | none => some (x, zeros x.length, d)
  else if pyStartsWith xtype ("2th") then
    match wavelength with
    | some wl =>
        some (x.map (fun v => T.q_from_twth v wl), x,
              x.map (fun v => T.d_from_twth v wl))
    | none => some (zeros x.length, x, zeros x.length)
  else if pyStartsWith xtype ("d") then
    let q := x.map T.q_from_d
    match wavelength with
    | some wl => some (q, x.map (fun v => T.twth_from_d v wl), x)
    | none => some (q, zeros x.length, x)
  else none

/-- Method `xrd1d.set_xy_data(xy, xtype)` for a 2 x n data block already
split into its `x` and `y` rows: computes the three axes, stores the
intensity, resets the range to `(0, len(q))` and zero-fills the background.
When `calculate_xvalues` returns its `(None, None, None)` sentinel the
subsequent `len(self.q)` raises `TypeError`; that path is embedded as
`none`. -/
def set_xy_data (T : XrdTools) (p : xrd1d) (x y : List ℚ) (xtype : String) :
    Option xrd1d :=
  match calculate_xvalues T x xtype p.wavelength with
  | none => none
  | some (qv, tv, dv) =>
      some { p with q := qv, twth := tv, d := dv, I := y,
                    imin := 0, imax := qv.length, bkgd := zeros y.length }

/-- A pattern with no data loaded, as the no-file no-intensity constructor
path leaves it (data attributes `None`, `pki = []`, no wavelength). -/
def default_xrd1d : xrd1d :=
  { q := [], twth := [], d := [], I := [], bkgd := [],
    imin := 0, imax := 0, pki := [], wavelength := none }

/-- Method `xrd1d.xrd_from_2d([x, y], xtype)` on a fresh pattern carrying
`wavelength = wl`: delegates to `set_xy_data`. -/
def xrd_from_2d (T : XrdTools) (x y : List ℚ) (xtype : String)
    (wl : Option ℚ) : Option xrd1d :=
  set_xy_data T { default_xrd1d with wavelength := wl } x y xtype

/-- Outcome of the `xrd1d.__init__` constructor when no file is given. -/
inductive InitResult where
  | ok (p : xrd1d)
  | noData
  | nameError
deriving DecidableEq, Repr

/-- Constructor `xrd1d.__init__` with `file=None`: when an intensity array
`I` is supplied, the body evaluates `if xytq is not None` — but no local
named `xytq` (nor `q`, `twth`, `d`) is ever bound in `__init__`, so the call
raises `NameError` before any data attribute is populated; the `x` and
`xtype` parameters are never read by this branch.  When `I` is omitted, the
data attributes are set to `None` (`noData`). -/
def xrd1d_init (T : XrdTools) (x : Option (List ℚ)) (xtype : Option String)
    (I : Option (List ℚ)) (wavelength : Option ℚ) : InitResult :=
  match x, xtype, T, wavelength, I with
  | _, _, _, _, some _ => InitResult.nameError
  | _, _, _, _, none => InitResult.noData

/-- Method `xrd1d.slct_xaxis(xtype, xi)`: select the axis array named by the
string tag (or the integer alias).  On an unrecognized tag the print
statement of the method itself raises `TypeError` (its format string consumes one
of two arguments) and nothing is returned; embedded as `none`. -/
def slct_xaxis (p : xrd1d) (xtype : String) (xi : Option ℕ) :
    Option (List ℚ) :=
  if pyStartsWith xtype ("q") || xi == some 0 then some p.q
  else if pyStartsWith xtype ("2th") || xi == some 1 then some p.twth
  else if pyStartsWith xtype ("d") || xi == some 2 then some p.d
  else none

/-- Method `xrd1d.set_trim(xmin, xmax, xtype, xi)`: start from the default
range `(0, len(x) - 1)`, then move each bound to the index of the nearest
sample whenever the requested value lies strictly inside the data range.
An unrecognized tag (`slct_xaxis` fails) or an empty axis (`np.min`
raises `ValueError`) is embedded as `none`. -/
def set_trim (p : xrd1d) (xmin xmax : ℚ) (xtype : String) (xi : Option ℕ) :
    Option xrd1d :=
  match slct_xaxis p xtype xi with
  | none => none
  | some x =>
      if x.isEmpty then none
      else
        some { p with
          imin := if listMin x < xmin then argminAbs x xmin else 0,
          imax := if xmax < listMax x then argminAbs x xmax else x.length - 1 }

/-- Shared first line of `xrd1d.plot` and `xrd1d.all_data`:
`if reset: self.imin, self.imax = 0, len(self.I)`. -/
def applyReset (p : xrd1d) (reset : Bool) : xrd1d :=
  if reset then { p with imin := 0, imax := p.I.length } else p

/-- The five arrays returned by `plot` / `all_data`:
`(q, twth, d, intensity, bkgd)` in order. -/
abbrev Slice5 := List ℚ × List ℚ × List ℚ × List ℚ × List ℚ

instance : DecidableEq (Option Slice5) :=
  have h : DecidableEq Slice5 := inferInstance
  @Option.instDecidableEq _ h

/-- Method `xrd1d.plot(reset, bkgd)`: slice the four data arrays to the
active range; with `bkgd=True` return the background-subtracted intensity.
No shape repair is done, so the subtraction can raise `ValueError`
(`none` result) while the reset has already mutated the range. -/
def plot (p : xrd1d) (reset bkgd : Bool) : xrd1d × Option Slice5 :=
  let p1 := applyReset p reset
  let qs := listSlice p1.q p1.imin p1.imax
  let ts := listSlice p1.twth p1.imin p1.imax
  let ds := listSlice p1.d p1.imin p1.imax
  let iss := listSlice p1.I p1.imin p1.imax
  if bkgd then
    match npSub iss p1.bkgd with
    | some iv => (p1, some (qs, ts, ds, iv, p1.bkgd))
    | none => (p1, none)
  else (p1, some (qs, ts, ds, iss, p1.bkgd))

/-- Method `xrd1d.all_data(reset, bkgd)`: like `plot`, but first replaces
the stored background with zeros of the active-range length whenever its
length no longer matches, so the slice never fails. -/
def all_data (p : xrd1d) (reset bkgd : Bool) : xrd1d × Slice5 :=
  let p1 := applyReset p reset
  let iss := listSlice p1.I p1.imin p1.imax
  let p2 := if iss.length = p1.bkgd.length then p1
            else { p1 with bkgd := zeros iss.length }
  let qs := listSlice p2.q p2.imin p2.imax
  let ts := listSlice p2.twth p2.imin p2.imax
  let ds := listSlice p2.d p2.imin p2.imax
  if bkgd then
    (p2, (qs, ts, ds, List.zipWith (fun u v => u - v) iss p2.bkgd, p2.bkgd))
  else (p2, (qs, ts, ds, iss, p2.bkgd))

/-- Method `xrd1d.reset_bkgd()`: zero-fill the background to the full
intensity length. -/
def reset_bkgd (p : xrd1d) : xrd1d := { p with bkgd := zeros p.I.length }

/-- Method `xrd1d.fit_background()`, parameterized by `curve`, the value the
external estimator `xrd_background(q[imin:imax], I[imin:imax])` returned
(the estimator itself is an external collaborator).  Whenever the curve is
shorter than the active range — by however much — exactly one copy of its
last value is appended (`np.append(bkgd, bkgd[-1])`); an empty short curve
makes `bkgd[-1]` raise `IndexError` (`none`). -/
def fit_background (p : xrd1d) (curve : List ℚ) : Option xrd1d :=
  let y := listSlice p.I p.imin p.imax
  if curve.length < y.length then
    match curve.getLast? with
    | some l => some { p with bkgd := curve ++ [l] }
    | none => none
  else some { p with bkgd := curve }

/-- Method `xrd1d.find_peaks(bkgd, threshold, **kwargs)`, parameterized by
the external collaborators `peakfinder` (candidate indices from the
intensity row) and `peakfilter` (threshold filtering).  Builds the
`all_data` table (its background repair included), stores the surviving
indices into `self.pki`, and samples each of the five rows at those
indices.  An index outside the table raises `IndexError` with `pki`
already stored (`none` table). -/
def find_peaks (p : xrd1d) (bkgd : Bool) (threshold : Option ℚ)
    (pf : List ℚ → List ℕ) (pflt : ℚ → List ℕ → List ℚ → List ℕ) :
    xrd1d × Option Slice5 :=
  let pr := all_data p false bkgd
  let qs := pr.2.1
  let ts := pr.2.2.1
  let ds := pr.2.2.2.1
  let iss := pr.2.2.2.2.1
  let bs := pr.2.2.2.2.2
  let pki0 := pf iss
  let pki1 := match threshold with
    | some th => pflt th pki0 iss
    | none => pki0
  let p2 := { pr.1 with pki := pki1 }
  if pki1.all (fun j => j < iss.length) then
    (p2, some (pki1.map (fun j => qs.getD j 0),
               pki1.map (fun j => ts.getD j 0),
               pki1.map (fun j => ds.getD j 0),
               pki1.map (fun j => iss.getD j 0),
               pki1.map (fun j => bs.getD j 0)))
  else (p2, none)

/-- Length invariant of the spec: the four data arrays are index-aligned. -/
def lengthsOK (p : xrd1d) : Prop :=
  p.q.length = p.I.length ∧ p.twth.length = p.I.length ∧
    p.d.length = p.I.length

instance (p : xrd1d) : Decidable (lengthsOK p) := by
  unfold lengthsOK; infer_instance

/-- Concrete conversion bundle used to evaluate closed scenarios; the
trim/slice/background facts below never read the converted values. -/
def sampleTools : XrdTools :=
  { d_from_q := fun v => v, twth_from_q := fun v _ => v,
    q_from_twth := fun v _ => v, d_from_twth := fun v _ => v,
    q_from_d := fun v => v, twth_from_d := fun v _ => v }

/-- The pattern of the spec scenario: `q = [1,2,3,4,5]`,
`I = [0,5,10,5,0]`, `wavelength = 1`, full range, zero background
(the state `xrd_from_2d sampleTools` produces, see
`scenarioPattern_from_2d`). -/
def scenarioPattern : xrd1d :=
  { q := [1, 2, 3, 4, 5], twth := [1, 2, 3, 4, 5], d := [1, 2, 3, 4, 5],
    I := [0, 5, 10, 5, 0], bkgd := zeros 5,
    imin := 0, imax := 5, pki := [], wavelength := some 1 }

/-- A pattern whose stored background length (5) no longer matches its
active-range length (2). -/
def trimmedPattern : xrd1d :=
  { scenarioPattern with imin := 1, imax := 3 }

theorem scenarioPattern_from_2d :
    xrd_from_2d sampleTools [1, 2, 3, 4, 5] [0, 5, 10, 5, 0] ("q") (some 1)
      = some scenarioPattern := by decide


/-! Helper lemmas shared by the claim theorems. -/

theorem argminAbsAux_bound (v : ℚ) (l : List ℚ) (i bi : ℕ) (bv : ℚ) :
    argminAbsAux v l i bi bv = bi ∨ argminAbsAux v l i bi bv < i + l.length := by
  induction l generalizing i bi bv with
  | nil => exact Or.inl rfl
  | cons a t ih =>
    simp only [argminAbsAux]
    split
    · rcases ih (i + 1) i (absQ (a - v)) with h | h
      · right; rw [h]; simp only [List.length_cons]; omega
      · right; simp only [List.length_cons]; omega
    · rcases ih (i + 1) bi bv with h | h
      · exact Or.inl h
      · right; simp only [List.length_cons]; omega

theorem argminAbs_lt (x : List ℚ) (v : ℚ) (h : x ≠ []) :
    argminAbs x v < x.length := by
  match x with
  | [] => exact absurd rfl h
  | a :: t =>
    simp only [argminAbs]
    rcases argminAbsAux_bound v t 1 0 (absQ (a - v)) with h1 | h1
    · rw [h1]; simp only [List.length_cons]; omega
    · simp only [List.length_cons]; omega

theorem calculate_xvalues_lengths (T : XrdTools) (x : List ℚ)
    (xtype : String) (wl : Option ℚ) (qv tv dv : List ℚ)
    (h : calculate_xvalues T x xtype wl = some (qv, tv, dv)) :
    qv.length = x.length ∧ tv.length = x.length ∧ dv.length = x.length := by
  unfold calculate_xvalues at h
  split at h
  · cases wl <;>
    · simp only [Option.some.injEq, Prod.mk.injEq] at h
      obtain ⟨h1, h2, h3⟩ := h
      subst h1; subst h2; subst h3
      simp [zeros]
  · split at h
    · cases wl <;>
      · simp only [Option.some.injEq, Prod.mk.injEq] at h
        obtain ⟨h1, h2, h3⟩ := h
        subst h1; subst h2; subst h3
        simp [zeros]
    · split at h
      · cases wl <;>
        · simp only [Option.some.injEq, Prod.mk.injEq] at h
          obtain ⟨h1, h2, h3⟩ := h
          subst h1; subst h2; subst h3
          simp [zeros]
      · cases h

theorem set_xy_data_some (T : XrdTools) (p : xrd1d) (x y : List ℚ)
    (xtype : String) (qv tv dv : List ℚ)
    (h : calculate_xvalues T x xtype p.wavelength = some (qv, tv, dv)) :
    set_xy_data T p x y xtype =
      some { p with q := qv, twth := tv, d := dv, I := y,
                    imin := 0, imax := qv.length, bkgd := zeros y.length } := by
  unfold set_xy_data; rw [h]

theorem set_xy_data_inv (T : XrdTools) (p : xrd1d) (x y : List ℚ)
    (xtype : String) (p' : xrd1d) (h : set_xy_data T p x y xtype = some p') :
    ∃ qv tv dv, calculate_xvalues T x xtype p.wavelength = some (qv, tv, dv) ∧
      p' = { p with q := qv, twth := tv, d := dv, I := y,
                    imin := 0, imax := qv.length, bkgd := zeros y.length } := by
  unfold set_xy_data at h
  cases hc : calculate_xvalues T x xtype p.wavelength with
  | none => rw [hc] at h; cases h
  | some v =>
    obtain ⟨qv, tv, dv⟩ := v
    rw [hc] at h
    exact ⟨qv, tv, dv, rfl, (Option.some.inj h).symm⟩

theorem set_trim_inv (p : xrd1d) (xmin xmax : ℚ) (xt : String)
    (xi : Option ℕ) (p' : xrd1d)
    (h : set_trim p xmin xmax xt xi = some p') :
    ∃ ax, slct_xaxis p xt xi = some ax ∧ ax ≠ [] ∧
      p' = { p with
        imin := if listMin ax < xmin then argminAbs ax xmin else 0,
        imax := if xmax < listMax ax then argminAbs ax xmax
                else ax.length - 1 } := by
  unfold set_trim at h
  cases hs : slct_xaxis p xt xi with
  | none => rw [hs] at h; cases h
  | some ax =>
    rw [hs] at h
    have h2 : (if ax.isEmpty = true then (none : Option xrd1d) else
        some { p with
          imin := if listMin ax < xmin then argminAbs ax xmin else 0,
          imax := if xmax < listMax ax then argminAbs ax xmax
                  else ax.length - 1 }) = some p' := h
    by_cases he : ax.isEmpty = true
    · rw [if_pos he] at h2; cases h2
    · rw [if_neg he] at h2
      refine ⟨ax, rfl, ?_, (Option.some.inj h2).symm⟩
      cases ax with
      | nil => exact absurd rfl he
      | cons a t => exact List.cons_ne_nil a t

/-! Claim C1. -/

/-- C1: constructing a Pattern from a native coordinate array, an intensity
array and an optional wavelength (no file) never succeeds, for any axis
choice: the constructor branch guarding the array path evaluates the name
`xytq`, which is bound nowhere in the constructor, so every such call
raises `NameError` and no coordinate or intensity attribute is populated. -/
theorem C1_construction_from_arrays_raises (T : XrdTools) (x : List ℚ)
    (xtype : String) (I : List ℚ) (wl : Option ℚ) :
    xrd1d_init T (some x) (some xtype) (some I) wl = InitResult.nameError :=
  rfl

/-! Claim C2. -/

/-- Evaluation of the scenario trim: `set_trim(2, 4, 'q')` resolves the
bounds to indices 1 and 3. -/
theorem set_trim_scenario :
    set_trim scenarioPattern 2 4 ("q") none = some trimmedPattern := by
  have hax : slct_xaxis scenarioPattern ("q") none
      = some scenarioPattern.q := by decide
  unfold set_trim
  rw [hax]
  norm_num [scenarioPattern, trimmedPattern, listMin, listMax,
            argminAbs, argminAbsAux, absQ, min_def, max_def]

/-- C2 counterexample: on the scenario pattern (`q = [1,2,3,4,5]`,
`intensity = [0,5,10,5,0]`, `wavelength = 1`), `set_trim(2, 4, 'q')` sets
`imax` to 3, not 4, and `all_data(False, False)` then returns the intensity
slice `[5, 10]`, not `[5, 10, 5]`: the high endpoint is excluded. -/
theorem C2_counterexample :
    ((set_trim scenarioPattern 2 4 ("q") none).map xrd1d.imax ≠ some 4) ∧
    ((set_trim scenarioPattern 2 4 ("q") none).map
        (fun p => (all_data p false false).2.2.2.2.1) ≠ some [5, 10, 5]) := by
  rw [set_trim_scenario]
  exact ⟨by decide, by decide⟩

/-- C2 amended: on the scenario pattern, `set_trim(2, 4, 'q')` sets
`rangeStart = 1` and `rangeEnd = 3` (the nearest-sample index of the high
endpoint, which the subsequent half-open slice excludes), and `all_data`
without background subtraction returns the intensity values `[5, 10]`. -/
theorem C2_trim_and_slice :
    (set_trim scenarioPattern 2 4 ("q") none).map
        (fun p => (p.imin, p.imax, (all_data p false false).2.2.2.2.1))
      = some (1, 3, [5, 10]) := by
  rw [set_trim_scenario]
  decide

/-! Claim C3. -/

/-- C3 counterexample: on an unrecognized axis tag the conversion does not
fail with an error naming the tag — it returns the `(None, None, None)`
sentinel, identical for two different unknown tags, so the result carries
no trace of which tag was rejected and no exception is modelled. -/
theorem C3_counterexample :
    calculate_xvalues sampleTools [1] ("foo") none
      = calculate_xvalues sampleTools [1] ("bar") none ∧
    calculate_xvalues sampleTools [1] ("foo") none = none := by decide

/-- C3 amended: an axis tag recognized by none of the prefixes q / 2th / d
makes `calculate_xvalues` print a message and return the `(None, None,
None)` sentinel, and makes `slct_xaxis` (and therefore `set_trim`) fail
without returning an axis; no `InvalidAxisError` naming the tag exists —
the downstream failure is an incidental `TypeError`. -/
theorem C3_unknown_axis_sentinel (T : XrdTools) (x : List ℚ)
    (wl : Option ℚ) (p : xrd1d) (tag : String) (xmin xmax : ℚ)
    (hq : pyStartsWith tag ("q") = false)
    (h2 : pyStartsWith tag ("2th") = false)
    (hd : pyStartsWith tag ("d") = false) :
    calculate_xvalues T x tag wl = none ∧
    slct_xaxis p tag none = none ∧
    set_trim p xmin xmax tag none = none := by
  refine ⟨?_, ?_, ?_⟩
  · simp [calculate_xvalues, hq, h2, hd]
  · simp [slct_xaxis, hq, h2, hd]
  · simp [set_trim, slct_xaxis, hq, h2, hd]

theorem C3_witness :
    calculate_xvalues sampleTools [1] ("foo") none = none ∧
    slct_xaxis scenarioPattern ("foo") none = none ∧
    set_trim scenarioPattern 0 1 ("foo") none = none :=
  C3_unknown_axis_sentinel sampleTools [1] none scenarioPattern ("foo") 0 1
    (by decide) (by decide) (by decide)

/-! Claim C4. -/

/-- C4 counterexample: on the scenario pattern (length 5), `set_trim` with
a low value below the minimum and a high value above the maximum leaves
`imin = 0` but `imax = 4 = length - 1`, not `length = 5`. -/
theorem C4_counterexample :
    (set_trim scenarioPattern 0 10 ("q") none).map
        (fun p => (p.imin, p.imax)) = some (0, 4) ∧
    (set_trim scenarioPattern 0 10 ("q") none).map xrd1d.imax ≠ some 5 := by
  decide

/-- C4 amended: for every Pattern and selected axis, `set_trim` with a low
value at or below the axis minimum sets `rangeStart = 0`, and with a high
value at or above the axis maximum sets `rangeEnd = length - 1` (the
pre-clamping default), not `length`. -/
theorem C4_trim_clamps (p : xrd1d) (xmin xmax : ℚ) (xt : String)
    (ax : List ℚ) (p' : xrd1d)
    (hax : slct_xaxis p xt none = some ax)
    (h : set_trim p xmin xmax xt none = some p') :
    (xmin ≤ listMin ax → p'.imin = 0) ∧
    (listMax ax ≤ xmax → p'.imax = ax.length - 1) := by
  obtain ⟨ax', hax', hne, hp'⟩ := set_trim_inv p xmin xmax xt none p' h
  rw [hax] at hax'
  obtain rfl : ax = ax' := Option.some.inj hax'
  subst hp'
  constructor
  · intro hle
    simp [if_neg (not_lt.mpr hle)]
  · intro hle
    simp [if_neg (not_lt.mpr hle)]

theorem C4_witness :
    ({ scenarioPattern with imin := 0, imax := 4 } : xrd1d).imin = 0 ∧
    ({ scenarioPattern with imin := 0, imax := 4 } : xrd1d).imax =
      ([1, 2, 3, 4, 5] : List ℚ).length - 1 := by
  have h := C4_trim_clamps scenarioPattern 1 5 ("q") [1, 2, 3, 4, 5]
    { scenarioPattern with imin := 0, imax := 4 } (by decide) (by decide)
  exact ⟨h.1 (by decide), h.2 (by decide)⟩


/-! Claim C5. -/

/-- Evaluation of an inverted trim request on the scenario pattern: a low
value above every sample and a high value below every sample cross the two
bounds. -/
theorem set_trim_scenario_inverted :
    set_trim scenarioPattern 5 1 ("q") none =
      some { scenarioPattern with imin := 4, imax := 0 } := by
  have hax : slct_xaxis scenarioPattern ("q") none
      = some scenarioPattern.q := by decide
  unfold set_trim
  rw [hax]
  norm_num [scenarioPattern, listMin, listMax,
            argminAbs, argminAbsAux, absQ, min_def, max_def]

/-- C5 counterexample: `set_trim` with an inverted request (`lowValue = 5`,
`highValue = 1`) on the scenario pattern produces `rangeStart = 4` and
`rangeEnd = 0`, violating `rangeStart < rangeEnd`: no fallback rejects the
degenerate range. -/
theorem C5_counterexample :
    (set_trim scenarioPattern 5 1 ("q") none).map
        (fun p => (p.imin, p.imax)) = some (4, 0) ∧ ¬ (4 < 0) := by
  rw [set_trim_scenario_inverted]
  exact ⟨rfl, by omega⟩

/-- C5 amended: after construction from a nonempty data block the invariant
`0 ≤ imin < imax ≤ length` holds (`imin = 0`, `imax = length`); `set_trim`
keeps both indices strictly below the selected axis length (in particular
`rangeEnd ≤ length - 1`) but does not guarantee `imin < imax`. -/
theorem C5_range_invariant (T : XrdTools) (x y : List ℚ) (xtype : String)
    (wl : Option ℚ) (p : xrd1d)
    (hc : xrd_from_2d T x y xtype wl = some p) (hx : x ≠ []) :
    (p.imin = 0 ∧ p.imax = x.length ∧ p.imin < p.imax) ∧
    (∀ xmin xmax xt xi ax p', slct_xaxis p xt xi = some ax →
        set_trim p xmin xmax xt xi = some p' →
        p'.imin < ax.length ∧ p'.imax < ax.length) := by
  obtain ⟨qv, tv, dv, hcv, hp⟩ := set_xy_data_inv T _ x y xtype p hc
  obtain ⟨hq, ht, hd⟩ := calculate_xvalues_lengths T x xtype _ qv tv dv hcv
  constructor
  · subst hp
    refine ⟨rfl, hq, ?_⟩
    show 0 < qv.length
    rw [hq]
    exact List.length_pos.mpr hx
  · intro xmin xmax xt xi ax p' hax htrim
    obtain ⟨ax', hax', hne, hp'⟩ := set_trim_inv p xmin xmax xt xi p' htrim
    rw [hax] at hax'
    obtain rfl : ax = ax' := Option.some.inj hax'
    have hlen : 0 < ax.length := List.length_pos.mpr hne
    subst hp'
    constructor
    · show (if listMin ax < xmin then argminAbs ax xmin else 0) < ax.length
      split
      · exact argminAbs_lt ax xmin hne
      · exact hlen
    · show (if xmax < listMax ax then argminAbs ax xmax
            else ax.length - 1) < ax.length
      split
      · exact argminAbs_lt ax xmax hne
      · omega

theorem C5_witness :
    (scenarioPattern.imin = 0 ∧
     scenarioPattern.imax = ([1, 2, 3, 4, 5] : List ℚ).length ∧
     scenarioPattern.imin < scenarioPattern.imax) ∧
    ({ scenarioPattern with imin := 0, imax := 4 } : xrd1d).imin <
      scenarioPattern.q.length ∧
    ({ scenarioPattern with imin := 0, imax := 4 } : xrd1d).imax <
      scenarioPattern.q.length := by
  have h := C5_range_invariant sampleTools [1, 2, 3, 4, 5] [0, 5, 10, 5, 0]
    ("q") (some 1) scenarioPattern (by decide) (by decide)
  have h2 := h.2 1 5 ("q") none scenarioPattern.q
    { scenarioPattern with imin := 0, imax := 4 } (by decide) (by decide)
  exact ⟨h.1, h2.1, h2.2⟩

/-! Claim C6. -/

/-- C6 counterexample: with an active range of length 5, a background curve
of length 2 — short by three samples — is accepted: one repeated value is
appended and the length-3 result stored, with no error raised. -/
theorem C6_counterexample :
    (fit_background scenarioPattern [1, 2]).map xrd1d.bkgd
      = some [1, 2, 2] ∧
    (fit_background scenarioPattern [1, 2]).map
        (fun p => (p.bkgd.length, (listSlice p.I p.imin p.imax).length))
      = some (3, 5) ∧ (3 : ℕ) ≠ 5 := by
  refine ⟨by decide, by decide, by decide⟩

/-- C6 amended: a curve shorter than the active range by exactly one sample
is padded by one copy of its last value, making the stored background match
the active-range length; a curve shorter by more than one sample is padded
by that same single copy and stored still shorter than the active range —
no `ShapeMismatchError` (nor any other error) is raised for the larger
mismatch. -/
theorem C6_pad_policy (p : xrd1d) (curve : List ℚ) (l : ℚ)
    (hl : curve.getLast? = some l) :
    (curve.length + 1 = (listSlice p.I p.imin p.imax).length →
      fit_background p curve = some { p with bkgd := curve ++ [l] } ∧
      (curve ++ [l]).length = (listSlice p.I p.imin p.imax).length) ∧
    (curve.length + 1 < (listSlice p.I p.imin p.imax).length →
      fit_background p curve = some { p with bkgd := curve ++ [l] } ∧
      (curve ++ [l]).length < (listSlice p.I p.imin p.imax).length) := by
  constructor
  · intro h
    constructor
    · simp only [fit_background]
      rw [if_pos (by omega :
            curve.length < (listSlice p.I p.imin p.imax).length), hl]
    · simp only [List.length_append, List.length_cons, List.length_nil]
      omega
  · intro h
    constructor
    · simp only [fit_background]
      rw [if_pos (by omega :
            curve.length < (listSlice p.I p.imin p.imax).length), hl]
    · simp only [List.length_append, List.length_cons, List.length_nil]
      omega

theorem C6_witness :
    (fit_background scenarioPattern [1, 2, 3, 4] =
      some { scenarioPattern with bkgd := [1, 2, 3, 4] ++ [4] } ∧
     (([1, 2, 3, 4] : List ℚ) ++ [4]).length =
      (listSlice scenarioPattern.I scenarioPattern.imin
        scenarioPattern.imax).length) ∧
    (fit_background scenarioPattern [1, 2] =
      some { scenarioPattern with bkgd := [1, 2] ++ [2] } ∧
     (([1, 2] : List ℚ) ++ [2]).length <
      (listSlice scenarioPattern.I scenarioPattern.imin
        scenarioPattern.imax).length) := by
  have ha := C6_pad_policy scenarioPattern [1, 2, 3, 4] 4 (by decide)
  have hb := C6_pad_policy scenarioPattern [1, 2] 2 (by decide)
  exact ⟨ha.1 (by decide), hb.2 (by decide)⟩


/-! Claim C7. -/

/-- C7: whenever `find_peaks` returns a table, the surviving indices are
the stored `pki` (the peak-finder output, threshold-filtered when a
threshold is given), the five returned rows each have length `numPeaks` and
hold the `(q, twoTheta, d, intensity, background)` values of the `all_data`
slice at each surviving index, and zero surviving peaks yield the empty
`(5, 0)` table returned successfully — never a failure. -/
theorem C7_find_peaks_table (p : xrd1d) (b : Bool) (th : Option ℚ)
    (pf : List ℚ → List ℕ) (pflt : ℚ → List ℕ → List ℚ → List ℕ)
    (p' : xrd1d) (tbl : Slice5) :
    (find_peaks p b th pf pflt = (p', some tbl) →
      (p'.pki = match th with
        | some t => pflt t (pf (all_data p false b).2.2.2.2.1)
            (all_data p false b).2.2.2.2.1
        | none => pf (all_data p false b).2.2.2.2.1) ∧
      (tbl.1.length = p'.pki.length ∧ tbl.2.1.length = p'.pki.length ∧
       tbl.2.2.1.length = p'.pki.length ∧
       tbl.2.2.2.1.length = p'.pki.length ∧
       tbl.2.2.2.2.length = p'.pki.length) ∧
      (tbl.1 = p'.pki.map (fun j => (all_data p false b).2.1.getD j 0) ∧
       tbl.2.1 = p'.pki.map
         (fun j => (all_data p false b).2.2.1.getD j 0) ∧
       tbl.2.2.1 = p'.pki.map
         (fun j => (all_data p false b).2.2.2.1.getD j 0) ∧
       tbl.2.2.2.1 = p'.pki.map
         (fun j => (all_data p false b).2.2.2.2.1.getD j 0) ∧
       tbl.2.2.2.2 = p'.pki.map
         (fun j => (all_data p false b).2.2.2.2.2.getD j 0)) ∧
      (p'.pki = [] → tbl = ([], [], [], [], []))) ∧
    ((match th with
        | some t => pflt t (pf (all_data p false b).2.2.2.2.1)
            (all_data p false b).2.2.2.2.1
        | none => pf (all_data p false b).2.2.2.2.1) = [] →
      find_peaks p b th pf pflt =
        ({ (all_data p false b).1 with pki := [] },
         some ([], [], [], [], []))) := by
  constructor
  · intro h
    simp only [find_peaks] at h
    split at h
    · injection h with h1 h2
      injection h2 with h2
      subst h1
      subst h2
      refine ⟨rfl, ?_, ⟨rfl, rfl, rfl, rfl, rfl⟩, ?_⟩
      · simp [List.length_map]
      · intro hemp
        simp only at hemp
        simp [hemp]
    · injection h with h1 h2
      cases h2
  · intro hemp
    simp only [find_peaks]
    rw [hemp]
    simp

/-! Claim C9. -/

theorem calc2th_none (T : XrdTools) (x : List ℚ) :
    calculate_xvalues T x ("2th") none
      = some (zeros x.length, x, zeros x.length) := rfl

/-- C9: with the wavelength absent, conversion zero-fills (at the input
length) every derived axis that needs the wavelength instead of failing —
q-native and d-native axes get a zeroed 2theta — and a Pattern constructed
from a 2theta-native axis with no wavelength is built successfully (no
exception) with `q` and `d` all-zero arrays of the same length as `twth`. -/
theorem C9_missing_wavelength (T : XrdTools) (x y : List ℚ) :
    calculate_xvalues T x ("q") none
      = some (x, zeros x.length, x.map T.d_from_q) ∧
    calculate_xvalues T x ("d") none
      = some (x.map T.q_from_d, zeros x.length, x) ∧
    xrd_from_2d T x y ("2th") none =
      some { default_xrd1d with
             q := zeros x.length, twth := x, d := zeros x.length, I := y,
             imin := 0, imax := x.length, bkgd := zeros y.length } := by
  refine ⟨rfl, rfl, ?_⟩
  unfold xrd_from_2d
  rw [set_xy_data_some T _ x y ("2th") (zeros x.length) x (zeros x.length)
      (calc2th_none T x)]
  simp [zeros, default_xrd1d]


theorem C7_witness :
    find_peaks scenarioPattern false none (fun _ => ([] : List ℕ))
        (fun _ l _ => l) =
      ({ (all_data scenarioPattern false false).1 with
          pki := ([] : List ℕ) },
       some ([], [], [], [], [])) ∧
    ([] : List ℚ).length =
      ({ (all_data scenarioPattern false false).1 with
          pki := ([] : List ℕ) } : xrd1d).pki.length := by
  have h := C7_find_peaks_table scenarioPattern false none
    (fun _ => ([] : List ℕ)) (fun _ l _ => l)
    { (all_data scenarioPattern false false).1 with pki := ([] : List ℕ) }
    ([], [], [], [], [])
  exact ⟨h.2 rfl, (h.1 (h.2 rfl)).2.1.1⟩

/-! Claim C8. -/

theorem lengthsOK_applyReset (p : xrd1d) (r : Bool) (h : lengthsOK p) :
    lengthsOK (applyReset p r) := by
  cases r <;> exact h

theorem plot_fst (p : xrd1d) (r b : Bool) :
    (plot p r b).1 = applyReset p r := by
  cases b
  · rfl
  · simp only [plot]
    rcases npSub
        (listSlice (applyReset p r).I (applyReset p r).imin
          (applyReset p r).imax) (applyReset p r).bkgd with _ | iv <;> simp

theorem all_data_fst (p : xrd1d) (r b : Bool) :
    (all_data p r b).1 =
      (if (listSlice (applyReset p r).I (applyReset p r).imin
            (applyReset p r).imax).length = (applyReset p r).bkgd.length
       then applyReset p r
       else { applyReset p r with
              bkgd := zeros (listSlice (applyReset p r).I
                (applyReset p r).imin (applyReset p r).imax).length }) := by
  cases b <;> simp [all_data]

theorem all_data_fst_lengthsOK (p : xrd1d) (r b : Bool) (h : lengthsOK p) :
    lengthsOK (all_data p r b).1 := by
  have h1 := lengthsOK_applyReset p r h
  rw [all_data_fst]
  split
  · exact h1
  · exact h1

/-- C8: the four data arrays are index-aligned after construction and after
every mutating operation (`set_trim`, `plot`/`all_data` including their
resets and repairs, `fit_background`, `find_peaks`, `reset_bkgd`);
equivalently, whenever `calculate_xvalues` returns arrays at all, the three
outputs have the length of the input. -/
theorem C8_length_invariant (T : XrdTools) :
    (∀ x xtype wl qv tv dv,
        calculate_xvalues T x xtype wl = some (qv, tv, dv) →
        qv.length = x.length ∧ tv.length = x.length ∧
          dv.length = x.length) ∧
    (∀ p x y xtype p', x.length = y.length →
        set_xy_data T p x y xtype = some p' → lengthsOK p') ∧
    (∀ p xmin xmax xt xi p', lengthsOK p →
        set_trim p xmin xmax xt xi = some p' → lengthsOK p') ∧
    (∀ p r b, lengthsOK p →
        lengthsOK (plot p r b).1 ∧ lengthsOK (all_data p r b).1) ∧
    (∀ p curve p', lengthsOK p →
        fit_background p curve = some p' → lengthsOK p') ∧
    (∀ p b th pf pflt, lengthsOK p →
        lengthsOK (find_peaks p b th pf pflt).1) ∧
    (∀ p, lengthsOK p → lengthsOK (reset_bkgd p)) := by
  refine ⟨?_, ?_, ?_, ?_, ?_, ?_, ?_⟩
  · exact fun x xtype wl qv tv dv h =>
      calculate_xvalues_lengths T x xtype wl qv tv dv h
  · intro p x y xtype p' hxy h
    obtain ⟨qv, tv, dv, hcv, hp'⟩ := set_xy_data_inv T p x y xtype p' h
    obtain ⟨hq, ht, hd⟩ :=
      calculate_xvalues_lengths T x xtype p.wavelength qv tv dv hcv
    subst hp'
    unfold lengthsOK
    exact ⟨hq.trans hxy, ht.trans hxy, hd.trans hxy⟩
  · intro p xmin xmax xt xi p' h htrim
    obtain ⟨ax, _, _, hp'⟩ := set_trim_inv p xmin xmax xt xi p' htrim
    subst hp'
    exact h
  · intro p r b h
    refine ⟨?_, all_data_fst_lengthsOK p r b h⟩
    rw [plot_fst]
    exact lengthsOK_applyReset p r h
  · intro p curve p' h hf
    simp only [fit_background] at hf
    split at hf
    · cases hg : curve.getLast? with
      | none => rw [hg] at hf; cases hf
      | some l =>
        rw [hg] at hf
        obtain rfl : p' = _ := (Option.some.inj hf).symm
        exact h
    · obtain rfl : p' = _ := (Option.some.inj hf).symm
      exact h
  · intro p b th pf pflt h
    have h2 := all_data_fst_lengthsOK p false b h
    simp only [find_peaks]
    split
    · exact h2
    · exact h2
  · intro p h
    exact h

theorem C8_witness :
    (([1, 2, 3] : List ℚ).length = ([1, 2, 3] : List ℚ).length ∧
     (zeros 3).length = ([1, 2, 3] : List ℚ).length ∧
     ([1, 2, 3] : List ℚ).length = ([1, 2, 3] : List ℚ).length) ∧
    lengthsOK scenarioPattern ∧
    lengthsOK ({ scenarioPattern with imin := 0, imax := 4 } : xrd1d) ∧
    lengthsOK (plot scenarioPattern false false).1 ∧
    lengthsOK (all_data scenarioPattern false false).1 ∧
    lengthsOK ({ scenarioPattern with bkgd := [1, 2] ++ [2] } : xrd1d) ∧
    lengthsOK (find_peaks scenarioPattern false none
      (fun _ => ([] : List ℕ)) (fun _ l _ => l)).1 ∧
    lengthsOK (reset_bkgd scenarioPattern) := by
  have h := C8_length_invariant sampleTools
  have h1 : lengthsOK scenarioPattern :=
    h.2.1 { default_xrd1d with wavelength := some 1 } [1, 2, 3, 4, 5]
      [0, 5, 10, 5, 0] ("q") scenarioPattern (by decide) (by decide)
  refine ⟨h.1 [1, 2, 3] ("q") none [1, 2, 3] (zeros 3) [1, 2, 3]
      (by decide), h1, ?_, ?_, ?_, ?_, ?_, ?_⟩
  · exact h.2.2.1 scenarioPattern 1 5 ("q") none
      { scenarioPattern with imin := 0, imax := 4 } h1 (by decide)
  · exact (h.2.2.2.1 scenarioPattern false false h1).1
  · exact (h.2.2.2.1 scenarioPattern false false h1).2
  · exact h.2.2.2.2.1 scenarioPattern [1, 2]
      { scenarioPattern with bkgd := [1, 2] ++ [2] } h1 (by decide)
  · exact h.2.2.2.2.2.1 scenarioPattern false none
      (fun _ => ([] : List ℕ)) (fun _ l _ => l) h1
  · exact h.2.2.2.2.2.2 scenarioPattern h1

/-! Claim C10. -/

/-- C10 counterexample: on a pattern whose stored background (length 5) no
longer matches its active range (length 2), `plot` and `all_data` with the
same flags disagree: `all_data` zero-fills the background (mutating the
pattern and returning the repaired row) while `plot` returns the stale
length-5 row and leaves the pattern unchanged. -/
theorem C10_counterexample :
    plot trimmedPattern false false ≠
      ((all_data trimmedPattern false false).1,
       some (all_data trimmedPattern false false).2) := by decide

/-- C10 amended: `plot` and `all_data`, called with the same `reset` and
`bkgd` flags, return the same five arrays and leave the pattern in the same
state whenever the stored background length equals the active-range length
(after the optional reset); the silent background repair of `all_data` is
the only behavioural difference between the two. -/
theorem C10_plot_all_data_agree (p : xrd1d) (r b : Bool)
    (h : (applyReset p r).bkgd.length =
         (listSlice (applyReset p r).I (applyReset p r).imin
            (applyReset p r).imax).length) :
    plot p r b = ((all_data p r b).1, some (all_data p r b).2) := by
  have h2 : (listSlice (applyReset p r).I (applyReset p r).imin
      (applyReset p r).imax).length = (applyReset p r).bkgd.length := h.symm
  cases b <;> simp [plot, all_data, npSub, h2]

theorem C10_witness :
    plot scenarioPattern false false =
      ((all_data scenarioPattern false false).1,
       some (all_data scenarioPattern false false).2) :=
  C10_plot_all_data_agree scenarioPattern false false (by decide)

end Xrd
